import Mathlib

set_option autoImplicit false

namespace FreedomMetal

/-- Translation of the C enum metal_interrupt_controller_ in src/metal/interrupt.h,
lines 16 to 21: the possible interrupt controller kinds. -/
inductive metal_intr_cntrl_type where
  | METAL_CPU_CONTROLLER
  | METAL_CLINT_CONTROLLER
  | METAL_CLIC_CONTROLLER
  | METAL_PLIC_CONTROLLER
deriving DecidableEq, Repr

/-- Translation of the C enum metal_vector_mode_ in src/metal/interrupt.h,
lines 26 to 31: the possible interrupt vector modes. -/
inductive metal_vector_mode where
  | METAL_DIRECT_MODE
  | METAL_VECTOR_MODE
  | METAL_SELECTIVE_VECTOR_MODE
  | METAL_HARDWARE_VECTOR_MODE
deriving DecidableEq, Repr

/-- Translation of struct metal_interrupt_vtable, src/metal/interrupt.h lines 40 to 55.
Each C function pointer field may be NULL, which the embedding renders as an
Option-valued slot (none models a NULL function pointer). A slot function receives
the controller pointer; in the embedding it acts on the backend-private state sigma
reached through that pointer, returning its C result together with the new state.
Type parameters: sigma is the backend-private state, eta the handler pointer type
(metal_interrupt_handler_t, opaque here since the facade never calls it), pi the
opaque priv_data pointer, delta the opaque command_request data pointer.
C int becomes Int; C unsigned int and unsigned long long become Nat;
interrupt_init returns void, hence only a new state. -/
structure metal_interrupt_vtable (σ η π δ : Type) where
  interrupt_init : Option (σ → σ)
  interrupt_register : Option (σ → Int → η → π → Int × σ)
  interrupt_enable : Option (σ → Int → Int × σ)
  interrupt_disable : Option (σ → Int → Int × σ)
  interrupt_vector_enable : Option (σ → Int → metal_vector_mode → Int × σ)
  interrupt_vector_disable : Option (σ → Int → Int × σ)
  interrupt_get_threshold : Option (σ → Nat × σ)
  interrupt_set_threshold : Option (σ → Nat → Int × σ)
  interrupt_get_priority : Option (σ → Int → Nat × σ)
  interrupt_set_priority : Option (σ → Int → Nat → Int × σ)
  command_request : Option (σ → Int → δ → Int × σ)
  mtimecmp_set : Option (σ → Int → Nat → Int × σ)

/-- Translation of struct metal_interrupt, src/metal/interrupt.h lines 60 to 62:
the controller handle, holding exactly a reference to a capability table. -/
structure metal_interrupt (σ η π δ : Type) where
  vtable : metal_interrupt_vtable σ η π δ

variable {σ η π δ : Type}

/-- Translation of metal_interrupt_init, lines 73 to 76. The C parameter is a
pointer, so the embedding takes an Option handle: passing none models a NULL
controller pointer, whose dereference is undefined behavior, rendered as the
absent result none. Likewise a NULL interrupt_init slot is called without any
check, which is undefined behavior, again rendered none. The C function returns
void, so a defined outcome is only the new backend state. -/
def metal_interrupt_init (controller : Option (metal_interrupt σ η π δ)) (s : σ) :
    Option σ :=
  match controller with
  | none => none
  | some c => (c.vtable.interrupt_init).map (fun f => f s)

/-- Translation of metal_interrupt_register_handler, lines 96 to 102: forwards
controller, id, handler and priv_data to the interrupt_register slot, with the
same undefined-behavior rendering as metal_interrupt_init for a NULL pointer. -/
def metal_interrupt_register_handler (controller : Option (metal_interrupt σ η π δ))
    (id : Int) (handler : η) (priv_data : π) (s : σ) : Option (Int × σ) :=
  match controller with
  | none => none
  | some c => (c.vtable.interrupt_register).map (fun f => f s id handler priv_data)

/-- Translation of metal_interrupt_enable, lines 110 to 113. -/
def metal_interrupt_enable (controller : Option (metal_interrupt σ η π δ))
    (id : Int) (s : σ) : Option (Int × σ) :=
  match controller with
  | none => none
  | some c => (c.vtable.interrupt_enable).map (fun f => f s id)

/-- Translation of metal_interrupt_disable, lines 121 to 124. -/
def metal_interrupt_disable (controller : Option (metal_interrupt σ η π δ))
    (id : Int) (s : σ) : Option (Int × σ) :=
  match controller with
  | none => none
  | some c => (c.vtable.interrupt_disable).map (fun f => f s id)

/-- Translation of metal_interrupt_vector_enable, lines 133 to 137. -/
def metal_interrupt_vector_enable (controller : Option (metal_interrupt σ η π δ))
    (id : Int) (mode : metal_vector_mode) (s : σ) : Option (Int × σ) :=
  match controller with
  | none => none
  | some c => (c.vtable.interrupt_vector_enable).map (fun f => f s id mode)

/-- Translation of metal_interrupt_set_threshold, lines 145 to 148. -/
def metal_interrupt_set_threshold (controller : Option (metal_interrupt σ η π δ))
    (level : Nat) (s : σ) : Option (Int × σ) :=
  match controller with
  | none => none
  | some c => (c.vtable.interrupt_set_threshold).map (fun f => f s level)

/-- Translation of metal_interrupt_get_threshold, lines 155 to 158. -/
def metal_interrupt_get_threshold (controller : Option (metal_interrupt σ η π δ))
    (s : σ) : Option (Nat × σ) :=
  match controller with
  | none => none
  | some c => (c.vtable.interrupt_get_threshold).map (fun f => f s)

/-- Translation of metal_interrupt_set_priority, lines 167 to 171. -/
def metal_interrupt_set_priority (controller : Option (metal_interrupt σ η π δ))
    (id : Int) (priority : Nat) (s : σ) : Option (Int × σ) :=
  match controller with
  | none => none
  | some c => (c.vtable.interrupt_set_priority).map (fun f => f s id priority)

/-- Translation of metal_interrupt_get_priority, lines 179 to 182. -/
def metal_interrupt_get_priority (controller : Option (metal_interrupt σ η π δ))
    (id : Int) (s : σ) : Option (Nat × σ) :=
  match controller with
  | none => none
  | some c => (c.vtable.interrupt_get_priority).map (fun f => f s id)

/-- Translation of metal_interrupt_vector_disable, lines 190 to 193. -/
def metal_interrupt_vector_disable (controller : Option (metal_interrupt σ η π δ))
    (id : Int) (s : σ) : Option (Int × σ) :=
  match controller with
  | none => none
  | some c => (c.vtable.interrupt_vector_disable).map (fun f => f s id)

/-- Translation of _metal_interrupt_command_request, lines 196 to 200. -/
def _metal_interrupt_command_request (controller : Option (metal_interrupt σ η π δ))
    (cmd : Int) (data : δ) (s : σ) : Option (Int × σ) :=
  match controller with
  | none => none
  | some c => (c.vtable.command_request).map (fun f => f s cmd data)

/-- The names of the twelve capability-table slots of struct metal_interrupt_vtable,
lines 41 to 54, in declaration order. -/
inductive SlotName where
  | interrupt_init
  | interrupt_register
  | interrupt_enable
  | interrupt_disable
  | interrupt_vector_enable
  | interrupt_vector_disable
  | interrupt_get_threshold
  | interrupt_set_threshold
  | interrupt_get_priority
  | interrupt_set_priority
  | command_request
  | mtimecmp_set
deriving DecidableEq, Repr, Fintype

/-- The names of the eleven Dispatch Facade entry points defined in
src/metal/interrupt.h: the inline functions at lines 73, 96, 110, 121, 133, 145,
155, 167, 179, 190 and 196. These are all of the facade functions the header
defines; in particular the header defines no facade wrapper for the mtimecmp_set
slot. -/
inductive FacadeOpName where
  | init
  | register_handler
  | enable
  | disable
  | vector_enable
  | vector_disable
  | set_threshold
  | get_threshold
  | set_priority
  | get_priority
  | command_request
deriving DecidableEq, Repr, Fintype

/-- Tabulation, read off the body of each facade function in the header, of the
single capability-table slot that facade function dereferences and calls. -/
def slotOfOp : FacadeOpName → SlotName
  | .init => .interrupt_init
  | .register_handler => .interrupt_register
  | .enable => .interrupt_enable
  | .disable => .interrupt_disable
  | .vector_enable => .interrupt_vector_enable
  | .vector_disable => .interrupt_vector_disable
  | .set_threshold => .interrupt_set_threshold
  | .get_threshold => .interrupt_get_threshold
  | .set_priority => .interrupt_set_priority
  | .get_priority => .interrupt_get_priority
  | .command_request => .command_request

/-- The kind of C return type a facade function has: void, int, or unsigned. -/
inductive RetKind where
  | runit
  | rint
  | ruint
deriving DecidableEq, Repr, Fintype

/-- Tabulation of the C return type of each facade function in the header:
metal_interrupt_init returns void (line 73); the get_threshold and get_priority
facades return unsigned int (lines 155 and 179); all others return int. -/
def retKind : FacadeOpName → RetKind
  | .init => .runit
  | .register_handler => .rint
  | .enable => .rint
  | .disable => .rint
  | .vector_enable => .rint
  | .vector_disable => .rint
  | .set_threshold => .rint
  | .get_threshold => .ruint
  | .set_priority => .rint
  | .get_priority => .ruint
  | .command_request => .rint

/-- A facade invocation together with its client-supplied arguments, one
constructor per facade function defined in the header. -/
inductive FacadeCall (η π δ : Type) where
  | init
  | register_handler (id : Int) (handler : η) (priv_data : π)
  | enable (id : Int)
  | disable (id : Int)
  | vector_enable (id : Int) (mode : metal_vector_mode)
  | vector_disable (id : Int)
  | set_threshold (level : Nat)
  | get_threshold
  | set_priority (id : Int) (priority : Nat)
  | get_priority (id : Int)
  | command_request (cmd : Int) (data : δ)

/-- The facade function a call invokes, forgetting its arguments. -/
def opName : FacadeCall η π δ → FacadeOpName
  | .init => .init
  | .register_handler _ _ _ => .register_handler
  | .enable _ => .enable
  | .disable _ => .disable
  | .vector_enable _ _ => .vector_enable
  | .vector_disable _ => .vector_disable
  | .set_threshold _ => .set_threshold
  | .get_threshold => .get_threshold
  | .set_priority _ _ => .set_priority
  | .get_priority _ => .get_priority
  | .command_request _ _ => .command_request

/-- A facade return value: nothing for the void-returning init, an Int for the
int-returning facades, a Nat for the unsigned-returning facades. -/
inductive RetVal where
  | vunit
  | vint (i : Int)
  | vuint (n : Nat)
deriving DecidableEq, Repr

/-- The kind of a returned value. -/
def kindOfRet : RetVal → RetKind
  | .vunit => .runit
  | .vint _ => .rint
  | .vuint _ => .ruint

/-- Uniform wrapper over the eleven facade functions: runs the facade function
named by the call on the given controller pointer and backend state, packaging
the heterogeneous return types into RetVal. Each arm delegates verbatim to the
corresponding translated facade function. -/
def dispatch (call : FacadeCall η π δ) (controller : Option (metal_interrupt σ η π δ))
    (s : σ) : Option (RetVal × σ) :=
  match call with
  | .init => (metal_interrupt_init controller s).map (fun s2 => (RetVal.vunit, s2))
  | .register_handler id isr pd =>
      (metal_interrupt_register_handler controller id isr pd s).map
        (fun p => (RetVal.vint p.1, p.2))
  | .enable id =>
      (metal_interrupt_enable controller id s).map (fun p => (RetVal.vint p.1, p.2))
  | .disable id =>
      (metal_interrupt_disable controller id s).map (fun p => (RetVal.vint p.1, p.2))
  | .vector_enable id mode =>
      (metal_interrupt_vector_enable controller id mode s).map
        (fun p => (RetVal.vint p.1, p.2))
  | .vector_disable id =>
      (metal_interrupt_vector_disable controller id s).map
        (fun p => (RetVal.vint p.1, p.2))
  | .set_threshold level =>
      (metal_interrupt_set_threshold controller level s).map
        (fun p => (RetVal.vint p.1, p.2))
  | .get_threshold =>
      (metal_interrupt_get_threshold controller s).map
        (fun p => (RetVal.vuint p.1, p.2))
  | .set_priority id pr =>
      (metal_interrupt_set_priority controller id pr s).map
        (fun p => (RetVal.vint p.1, p.2))
  | .get_priority id =>
      (metal_interrupt_get_priority controller id s).map
        (fun p => (RetVal.vuint p.1, p.2))
  | .command_request cmd d =>
      (_metal_interrupt_command_request controller cmd d s).map
        (fun p => (RetVal.vint p.1, p.2))

/-- Whether the named slot of a capability table is filled (the C function
pointer is non-NULL). -/
def slotPresent (v : metal_interrupt_vtable σ η π δ) : SlotName → Bool
  | .interrupt_init => v.interrupt_init.isSome
  | .interrupt_register => v.interrupt_register.isSome
  | .interrupt_enable => v.interrupt_enable.isSome
  | .interrupt_disable => v.interrupt_disable.isSome
  | .interrupt_vector_enable => v.interrupt_vector_enable.isSome
  | .interrupt_vector_disable => v.interrupt_vector_disable.isSome
  | .interrupt_get_threshold => v.interrupt_get_threshold.isSome
  | .interrupt_set_threshold => v.interrupt_set_threshold.isSome
  | .interrupt_get_priority => v.interrupt_get_priority.isSome
  | .interrupt_set_priority => v.interrupt_set_priority.isSome
  | .command_request => v.command_request.isSome
  | .mtimecmp_set => v.mtimecmp_set.isSome

/-- Dispatch with the whole client-visible mutable world threaded through: the
controller object itself together with the backend-private state. The C facade
functions contain no store to the controller or to its vtable field (the
pointed-to table is moreover const qualified), and a slot acts on the
backend-private state, so the post-call controller object is the pre-call one. -/
def dispatchW (call : FacadeCall η π δ) (w : metal_interrupt σ η π δ × σ) :
    Option (RetVal × metal_interrupt σ η π δ × σ) :=
  (dispatch call (some w.1) w.2).map (fun p => (p.1, w.1, p.2))

/-- Modelled from the spec: the Controller Directory backing
metal_interrupt_get_controller, which src/metal/interrupt.h only declares
(lines 85 and 86) and whose definition is per-target code not under src.
Spec section 4.3: the directory is a mapping from (controller kind, instance
index) to controller handle, populated once at setup and immutable thereafter;
here it is the extra list argument, and lookup scans it for the first entry
with the requested key, returning none (the NULL handle) when no entry
matches. -/
def metal_interrupt_get_controller
    (dir : List ((metal_intr_cntrl_type × Int) × metal_interrupt σ η π δ))
    (cntrl : metal_intr_cntrl_type) (id : Int) : Option (metal_interrupt σ η π δ) :=
  match dir with
  | [] => none
  | e :: rest =>
      if e.1 = (cntrl, id) then some e.2
      else metal_interrupt_get_controller rest cntrl id

/-- Modelled from the spec: the backend-private state of a conforming concrete
controller backend, which is not under src (the header only declares the slot
signatures). Spec section 3: per-interrupt-id enabled flags and a controller-wide
threshold. -/
structure ModelBackendState where
  enabled : Int → Bool
  threshold : Nat

/-- Modelled from the spec: the interrupt_disable slot of a conforming backend.
Spec sections 4.1 and 8: disable(id) masks the id (clears its enabled flag),
fully succeeds returning 0, and mutates nothing else. -/
def model_interrupt_disable (s : ModelBackendState) (id : Int) :
    Int × ModelBackendState :=
  (0, ModelBackendState.mk (fun j => if j = id then false else s.enabled j) s.threshold)

/-- Modelled from the spec: the capability table of the conforming backend above,
filling only the interrupt_disable slot (a backend fills only the slots it
supports, spec section 4.1). -/
def model_vtable : metal_interrupt_vtable ModelBackendState Unit Unit Unit :=
  ⟨none, none, none, some model_interrupt_disable, none, none, none, none, none,
   none, none, none⟩

/-- A handle over the modelled conforming backend. -/
def modelHandle : metal_interrupt ModelBackendState Unit Unit Unit :=
  ⟨model_vtable⟩

/-- A concrete capability table with every slot absent (all function pointers
NULL), over backend state Nat. -/
def vtblAbsent : metal_interrupt_vtable Nat Unit Unit Unit :=
  ⟨none, none, none, none, none, none, none, none, none, none, none, none⟩

/-- A handle whose capability table has every slot absent. -/
def hAbsent : metal_interrupt Nat Unit Unit Unit :=
  ⟨vtblAbsent⟩

/-- A concrete capability table with every slot filled by a simple backend over
state Nat, used to exercise the forwarding facades. -/
def vtblFull : metal_interrupt_vtable Nat Unit Unit Unit where
  interrupt_init := some (fun s => s + 1)
  interrupt_register := some (fun s id _ _ => (id + 1, s + 2))
  interrupt_enable := some (fun s id => (id, s + 3))
  interrupt_disable := some (fun s id => (id - 1, s + 4))
  interrupt_vector_enable := some (fun s id _ => (id + 2, s + 5))
  interrupt_vector_disable := some (fun s id => (id + 3, s + 6))
  interrupt_get_threshold := some (fun s => (s + 7, s + 7))
  interrupt_set_threshold := some (fun s level => (Int.ofNat level, s + 8))
  interrupt_get_priority := some (fun s id => (s + id.toNat, s + 9))
  interrupt_set_priority := some (fun s id pr => (id + Int.ofNat pr, s + 10))
  command_request := some (fun s cmd _ => (cmd * 2, s + 11))
  mtimecmp_set := some (fun s hartid t => (hartid + Int.ofNat t, s + 12))

/-- A handle over vtblFull. -/
def hFull : metal_interrupt Nat Unit Unit Unit :=
  ⟨vtblFull⟩

/-- A second, separately constructed handle sharing the same capability table
contents as hFull. -/
def hFull2 : metal_interrupt Nat Unit Unit Unit :=
  ⟨vtblFull⟩

/-- A capability table whose init records a hardware initialization failure in
the backend state (state 1) but, as in C, can return nothing because
interrupt_init returns void. -/
def vtblInitFail : metal_interrupt_vtable Nat Unit Unit Unit :=
  ⟨some (fun _ => 1), none, none, none, none, none, none, none, none, none,
   none, none⟩

/-- A handle whose backend fails its hardware initialization. -/
def hInitFail : metal_interrupt Nat Unit Unit Unit :=
  ⟨vtblInitFail⟩

/-- A capability table whose init succeeds, recording success in the backend
state (state 0). -/
def vtblInitOK : metal_interrupt_vtable Nat Unit Unit Unit :=
  ⟨some (fun _ => 0), none, none, none, none, none, none, none, none, none,
   none, none⟩

/-- A handle whose backend initializes successfully. -/
def hInitOK : metal_interrupt Nat Unit Unit Unit :=
  ⟨vtblInitOK⟩

/-- A concrete one-entry controller directory registering hFull as CLINT
instance 0. -/
def dirExample : List ((metal_intr_cntrl_type × Int) × metal_interrupt Nat Unit Unit Unit) :=
  [((metal_intr_cntrl_type.METAL_CLINT_CONTROLLER, 0), hFull)]

theorem dispatch_retKind {σ η π δ : Type} (call : FacadeCall η π δ)
    (c : metal_interrupt σ η π δ) (s : σ) (r : RetVal) (s2 : σ)
    (h : dispatch call (some c) s = some (r, s2)) :
    kindOfRet r = retKind (opName call) := by
  cases call <;>
    · simp only [dispatch] at h
      rcases Option.map_eq_some'.mp h with ⟨p, hp, heq⟩
      cases heq
      rfl

theorem model_disable_state_idem (s : ModelBackendState) (id : Int) :
    (model_interrupt_disable (model_interrupt_disable s id).2 id).2 =
      (model_interrupt_disable s id).2 := by
  simp only [model_interrupt_disable]
  congr 1
  funext j
  by_cases hj : j = id <;> simp [hj]

/-- Claim C1, counterexample: on a handle whose interrupt_register slot is absent
(NULL), the facade does not fail with an UnsupportedOperation result value; it
dereferences and calls the absent slot, which is undefined behavior, modeled as
the absent outcome none. -/
theorem C1_absent_slot_counterexample :
    dispatch (FacadeCall.register_handler 0 () ()) (some hAbsent) 0 =
      (none : Option (RetVal × Nat)) := rfl

/-- Claim C1, amended: for every facade operation and every handle whose
capability-table slot for that operation is absent, the facade performs no
absent-slot check and calls the NULL slot, which is undefined behavior (no
defined result at all, modeled none); it does not return an UnsupportedOperation
error result, though it also does not silently no-op. -/
theorem C1_absent_slot_amended {σ η π δ : Type} (call : FacadeCall η π δ)
    (c : metal_interrupt σ η π δ) (s : σ)
    (habs : slotPresent c.vtable (slotOfOp (opName call)) = false) :
    dispatch call (some c) s = none := by
  cases call with
  | init =>
      cases ho : c.vtable.interrupt_init with
      | none => simp [dispatch, metal_interrupt_init, ho]
      | some f => simp [opName, slotOfOp, slotPresent, ho] at habs
  | register_handler id isr pd =>
      cases ho : c.vtable.interrupt_register with
      | none => simp [dispatch, metal_interrupt_register_handler, ho]
      | some f => simp [opName, slotOfOp, slotPresent, ho] at habs
  | enable id =>
      cases ho : c.vtable.interrupt_enable with
      | none => simp [dispatch, metal_interrupt_enable, ho]
      | some f => simp [opName, slotOfOp, slotPresent, ho] at habs
  | disable id =>
      cases ho : c.vtable.interrupt_disable with
      | none => simp [dispatch, metal_interrupt_disable, ho]
      | some f => simp [opName, slotOfOp, slotPresent, ho] at habs
  | vector_enable id mode =>
      cases ho : c.vtable.interrupt_vector_enable with
      | none => simp [dispatch, metal_interrupt_vector_enable, ho]
      | some f => simp [opName, slotOfOp, slotPresent, ho] at habs
  | vector_disable id =>
      cases ho : c.vtable.interrupt_vector_disable with
      | none => simp [dispatch, metal_interrupt_vector_disable, ho]
      | some f => simp [opName, slotOfOp, slotPresent, ho] at habs
  | set_threshold level =>
      cases ho : c.vtable.interrupt_set_threshold with
      | none => simp [dispatch, metal_interrupt_set_threshold, ho]
      | some f => simp [opName, slotOfOp, slotPresent, ho] at habs
  | get_threshold =>
      cases ho : c.vtable.interrupt_get_threshold with
      | none => simp [dispatch, metal_interrupt_get_threshold, ho]
      | some f => simp [opName, slotOfOp, slotPresent, ho] at habs
  | set_priority id pr =>
      cases ho : c.vtable.interrupt_set_priority with
      | none => simp [dispatch, metal_interrupt_set_priority, ho]
      | some f => simp [opName, slotOfOp, slotPresent, ho] at habs
  | get_priority id =>
      cases ho : c.vtable.interrupt_get_priority with
      | none => simp [dispatch, metal_interrupt_get_priority, ho]
      | some f => simp [opName, slotOfOp, slotPresent, ho] at habs
  | command_request cmd d =>
      cases ho : c.vtable.command_request with
      | none => simp [dispatch, _metal_interrupt_command_request, ho]
      | some f => simp [opName, slotOfOp, slotPresent, ho] at habs

/-- Claim C1, witness for the amended theorem at a concrete input: the enable
facade on the all-absent handle. -/
theorem C1_absent_slot_amended_witness :
    dispatch (FacadeCall.enable 4) (some hAbsent) 5 = (none : Option (RetVal × Nat)) :=
  C1_absent_slot_amended (FacadeCall.enable 4) hAbsent 5 rfl

/-- Claim C2, counterexample: invoking the enable facade on a nil (NULL) handle
is not detected and produces no detectable error value such as InvalidHandle;
the NULL controller pointer is dereferenced, which is undefined behavior,
modeled as the absent outcome none. -/
theorem C2_nil_handle_counterexample :
    dispatch (FacadeCall.enable 3) (none : Option (metal_interrupt Nat Unit Unit Unit)) 7 =
      (none : Option (RetVal × Nat)) := rfl

/-- Claim C2, amended: every facade operation invoked on a nil handle
dereferences the NULL pointer without any check: the outcome is undefined
behavior (no defined result, modeled none), not a detectable InvalidHandle
error. -/
theorem C2_nil_handle_amended {σ η π δ : Type} (call : FacadeCall η π δ) (s : σ) :
    dispatch call (none : Option (metal_interrupt σ η π δ)) s = none := by
  cases call <;> rfl

/-- Claim C3: for every facade operation whose capability-table slot is present,
the facade forwards the caller arguments unchanged to that slot and returns the
backend result and post-state unchanged: the outcome is exactly one application
of the slot function to the given state and arguments, so there is no caching,
no retry, no interrupt-id validation, and no side effect beyond the single
backend call. One conjunct per facade function, in header order. -/
theorem C3_forwarding {σ η π δ : Type} (c : metal_interrupt σ η π δ) (s : σ) :
    (∀ f, c.vtable.interrupt_init = some f →
        metal_interrupt_init (some c) s = some (f s)) ∧
    (∀ f id isr pd, c.vtable.interrupt_register = some f →
        metal_interrupt_register_handler (some c) id isr pd s = some (f s id isr pd)) ∧
    (∀ f id, c.vtable.interrupt_enable = some f →
        metal_interrupt_enable (some c) id s = some (f s id)) ∧
    (∀ f id, c.vtable.interrupt_disable = some f →
        metal_interrupt_disable (some c) id s = some (f s id)) ∧
    (∀ f id mode, c.vtable.interrupt_vector_enable = some f →
        metal_interrupt_vector_enable (some c) id mode s = some (f s id mode)) ∧
    (∀ f level, c.vtable.interrupt_set_threshold = some f →
        metal_interrupt_set_threshold (some c) level s = some (f s level)) ∧
    (∀ f, c.vtable.interrupt_get_threshold = some f →
        metal_interrupt_get_threshold (some c) s = some (f s)) ∧
    (∀ f id pr, c.vtable.interrupt_set_priority = some f →
        metal_interrupt_set_priority (some c) id pr s = some (f s id pr)) ∧
    (∀ f id, c.vtable.interrupt_get_priority = some f →
        metal_interrupt_get_priority (some c) id s = some (f s id)) ∧
    (∀ f id, c.vtable.interrupt_vector_disable = some f →
        metal_interrupt_vector_disable (some c) id s = some (f s id)) ∧
    (∀ f cmd d, c.vtable.command_request = some f →
        _metal_interrupt_command_request (some c) cmd d s = some (f s cmd d)) := by
  refine ⟨?_, ?_, ?_, ?_, ?_, ?_, ?_, ?_, ?_, ?_, ?_⟩
  · intro f hf
    simp [metal_interrupt_init, hf]
  · intro f id isr pd hf
    simp [metal_interrupt_register_handler, hf]
  · intro f id hf
    simp [metal_interrupt_enable, hf]
  · intro f id hf
    simp [metal_interrupt_disable, hf]
  · intro f id mode hf
    simp [metal_interrupt_vector_enable, hf]
  · intro f level hf
    simp [metal_interrupt_set_threshold, hf]
  · intro f hf
    simp [metal_interrupt_get_threshold, hf]
  · intro f id pr hf
    simp [metal_interrupt_set_priority, hf]
  · intro f id hf
    simp [metal_interrupt_get_priority, hf]
  · intro f id hf
    simp [metal_interrupt_vector_disable, hf]
  · intro f cmd d hf
    simp [_metal_interrupt_command_request, hf]

/-- Claim C3, witness: every conjunct of the forwarding theorem evaluated on the
fully populated concrete handle hFull at state 0. -/
theorem C3_forwarding_witness :
    metal_interrupt_init (some hFull) 0 = some 1 ∧
    metal_interrupt_register_handler (some hFull) 7 () () 0 = some (8, 2) ∧
    metal_interrupt_enable (some hFull) 5 0 = some (5, 3) ∧
    metal_interrupt_disable (some hFull) 5 0 = some (4, 4) ∧
    metal_interrupt_vector_enable (some hFull) 5 metal_vector_mode.METAL_VECTOR_MODE 0 = some (7, 5) ∧
    metal_interrupt_set_threshold (some hFull) 9 0 = some (9, 8) ∧
    metal_interrupt_get_threshold (some hFull) 0 = some (7, 7) ∧
    metal_interrupt_set_priority (some hFull) 5 2 0 = some (7, 10) ∧
    metal_interrupt_get_priority (some hFull) 5 0 = some (5, 9) ∧
    metal_interrupt_vector_disable (some hFull) 5 0 = some (8, 6) ∧
    _metal_interrupt_command_request (some hFull) 3 () 0 = some (6, 11) := by
  refine ⟨?_, ?_, ?_, ?_, ?_, ?_, ?_, ?_, ?_, ?_, ?_⟩
  · exact (C3_forwarding hFull 0).1 _ rfl
  · exact (C3_forwarding hFull 0).2.1 _ 7 () () rfl
  · exact (C3_forwarding hFull 0).2.2.1 _ 5 rfl
  · exact (C3_forwarding hFull 0).2.2.2.1 _ 5 rfl
  · exact (C3_forwarding hFull 0).2.2.2.2.1 _ 5 metal_vector_mode.METAL_VECTOR_MODE rfl
  · exact (C3_forwarding hFull 0).2.2.2.2.2.1 _ 9 rfl
  · exact (C3_forwarding hFull 0).2.2.2.2.2.2.1 _ rfl
  · exact (C3_forwarding hFull 0).2.2.2.2.2.2.2.1 _ 5 2 rfl
  · exact (C3_forwarding hFull 0).2.2.2.2.2.2.2.2.1 _ 5 rfl
  · exact (C3_forwarding hFull 0).2.2.2.2.2.2.2.2.2.1 _ 5 rfl
  · exact (C3_forwarding hFull 0).2.2.2.2.2.2.2.2.2.2 _ 3 () rfl

/-- Claim C4, counterexample: no facade entry point defined in the header
dispatches to the mtimecmp_set capability slot; in particular there is no
timer-compare facade operation in the Client API the header exposes. -/
theorem C4_timer_facade_counterexample :
    ¬ ∃ op : FacadeOpName, slotOfOp op = SlotName.mtimecmp_set := by decide

/-- Claim C4, amended: the capability table does include a timer-compare slot
(mtimecmp_set, header line 54, here shown fillable), but the header defines no
facade wrapper forwarding to it, while each of the other listed client
operations has a facade entry point reading its own slot. -/
theorem C4_timer_facade_amended :
    vtblFull.mtimecmp_set.isSome = true ∧
      ∀ op : FacadeOpName, slotOfOp op ≠ SlotName.mtimecmp_set :=
  ⟨rfl, by decide⟩

/-- Claim C5, counterexample: a backend whose hardware init fails (recording the
failure in its private state) and a backend whose init succeeds yield exactly
the same facade result value, because metal_interrupt_init returns void: the
failure of initialization does not propagate to the caller as a result value,
even though the two dispatches differ in backend state. -/
theorem C5_init_result_counterexample :
    (dispatch (FacadeCall.init : FacadeCall Unit Unit Unit) (some hInitFail) 0).map Prod.fst =
        (dispatch (FacadeCall.init : FacadeCall Unit Unit Unit) (some hInitOK) 0).map Prod.fst ∧
      dispatch (FacadeCall.init : FacadeCall Unit Unit Unit) (some hInitFail) 0 ≠
        dispatch (FacadeCall.init : FacadeCall Unit Unit Unit) (some hInitOK) 0 :=
  ⟨rfl, by decide⟩

/-- Claim C5, amended: every facade call that produces a defined outcome does so
synchronously as a single total function application, and every facade operation
other than init hands the backend result value back to the caller; init alone
returns no value (void), so its result carries no failure information. -/
theorem C5_init_result_amended {σ η π δ : Type} (call : FacadeCall η π δ)
    (c : metal_interrupt σ η π δ) (s : σ) (r : RetVal) (s2 : σ)
    (h : dispatch call (some c) s = some (r, s2)) :
    (r = RetVal.vunit ↔ opName call = FacadeOpName.init) := by
  have hk : kindOfRet r = retKind (opName call) := dispatch_retKind call c s r s2 h
  have hall : ∀ op : FacadeOpName, retKind op = RetKind.runit ↔ op = FacadeOpName.init := by
    decide
  constructor
  · intro hr
    exact (hall (opName call)).mp (by rw [← hk, hr]; rfl)
  · intro hop
    rw [hop] at hk
    cases r with
    | vunit => rfl
    | vint i => simp [kindOfRet, retKind] at hk
    | vuint n => simp [kindOfRet, retKind] at hk

/-- Claim C5, witness for the amended theorem: the enable facade on hFull
returns an int result value, and indeed enable is not init. -/
theorem C5_init_result_amended_witness :
    (RetVal.vint 5 = RetVal.vunit ↔
      opName (FacadeCall.enable 5 : FacadeCall Unit Unit Unit) = FacadeOpName.init) :=
  C5_init_result_amended (FacadeCall.enable 5) hFull 0 (RetVal.vint 5) 3 rfl

/-- Claim C6: directory lookup returns the handle registered for the requested
(kind, index) key when one was registered (first direction: no entry carries the
key, lookup returns the NULL handle none; second direction: an entry carries the
key and keys are not duplicated, lookup returns exactly that handle); lookup is
a total function, so it never raises a fatal fault. -/
theorem C6_lookup {σ η π δ : Type}
    (dir : List ((metal_intr_cntrl_type × Int) × metal_interrupt σ η π δ))
    (cntrl : metal_intr_cntrl_type) (id : Int) :
    ((∀ e ∈ dir, e.1 ≠ (cntrl, id)) →
        metal_interrupt_get_controller dir cntrl id = none) ∧
      (∀ h, ((cntrl, id), h) ∈ dir → (dir.map Prod.fst).Nodup →
        metal_interrupt_get_controller dir cntrl id = some h) := by
  induction dir with
  | nil =>
      exact ⟨fun _ => rfl, fun h hmem _ => absurd hmem (List.not_mem_nil _)⟩
  | cons e rest ih =>
      constructor
      · intro habs
        have he : e.1 ≠ (cntrl, id) := habs e (List.mem_cons_self e rest)
        have hrest := ih.1 (fun x hx => habs x (List.mem_cons_of_mem e hx))
        simp [metal_interrupt_get_controller, he, hrest]
      · intro h hmem hnd
        rw [List.map_cons] at hnd
        have hnd2 := List.nodup_cons.mp hnd
        rcases List.mem_cons.mp hmem with heq | htail
        · subst heq
          simp [metal_interrupt_get_controller]
        · have hkey : e.1 ≠ (cntrl, id) := by
            intro hk
            apply hnd2.1
            rw [hk]
            exact List.mem_map_of_mem Prod.fst htail
          have hrest := ih.2 h htail hnd2.2
          simp [metal_interrupt_get_controller, hkey, hrest]

/-- Claim C6, witness: on the concrete one-entry directory, looking up the
registered CLINT instance 0 returns its handle and looking up the unregistered
PLIC instance 2 returns none. -/
theorem C6_lookup_witness :
    metal_interrupt_get_controller dirExample
        metal_intr_cntrl_type.METAL_CLINT_CONTROLLER 0 = some hFull ∧
      metal_interrupt_get_controller dirExample
        metal_intr_cntrl_type.METAL_PLIC_CONTROLLER 2 = none := by
  constructor
  · exact (C6_lookup dirExample metal_intr_cntrl_type.METAL_CLINT_CONTROLLER 0).2 hFull
      (by simp [dirExample]) (by simp [dirExample])
  · exact (C6_lookup dirExample metal_intr_cntrl_type.METAL_PLIC_CONTROLLER 2).1 (by
      intro e he
      simp [dirExample] at he
      subst he
      decide)

/-- Claim C7, counterexample: on a backend lacking priority support (absent
get_priority slot), the get_priority facade does not return any result value at
all, hence no UnsupportedOperation and no witnessable untouched state: the NULL
slot is called, which is undefined behavior, modeled as the absent outcome. -/
theorem C7_priority_counterexample :
    ¬ ∃ r s2, metal_interrupt_get_priority (some hAbsent) 0 0 = some (r, s2) := by
  rintro ⟨r, s2, h⟩
  simp [metal_interrupt_get_priority, hAbsent, vtblAbsent] at h

/-- Claim C7, amended: on every backend whose get_priority and set_priority
slots are absent, the two priority facades call the NULL slot, which is
undefined behavior (no defined result and no defined post-state, modeled none);
no UnsupportedOperation error result is returned. -/
theorem C7_priority_amended {σ η π δ : Type} (c : metal_interrupt σ η π δ)
    (s : σ) (id : Int) (pr : Nat)
    (hg : c.vtable.interrupt_get_priority = none)
    (hs : c.vtable.interrupt_set_priority = none) :
    metal_interrupt_get_priority (some c) id s = none ∧
      metal_interrupt_set_priority (some c) id pr s = none := by
  constructor
  · simp [metal_interrupt_get_priority, hg]
  · simp [metal_interrupt_set_priority, hs]

/-- Claim C7, witness for the amended theorem on the all-absent handle. -/
theorem C7_priority_amended_witness :
    metal_interrupt_get_priority (some hAbsent) 3 2 = (none : Option (Nat × Nat)) ∧
      metal_interrupt_set_priority (some hAbsent) 3 4 2 = (none : Option (Int × Nat)) :=
  C7_priority_amended hAbsent 2 3 4 rfl rfl

/-- Claim C8: on the modelled conforming backend, the disable facade is
idempotent: disable(id) succeeds returning 0 with some post-state, and running
disable(id) again from that post-state succeeds returning 0 and leaves the state
exactly as after the first call. -/
theorem C8_disable_idempotent (s : ModelBackendState) (id : Int) :
    ∃ s1, metal_interrupt_disable (some modelHandle) id s = some (0, s1) ∧
      metal_interrupt_disable (some modelHandle) id s1 = some (0, s1) := by
  refine ⟨(model_interrupt_disable s id).2, rfl, ?_⟩
  show some ((0 : Int), (model_interrupt_disable (model_interrupt_disable s id).2 id).2) =
      some ((0 : Int), (model_interrupt_disable s id).2)
  rw [model_disable_state_idem s id]

/-- Claim C9: the capability-table reference of a handle is immutable across
facade calls: dispatch threaded over the whole client-visible mutable world (the
controller object together with the backend-private state) leaves the vtable of
the controller in the post-world equal to the vtable in the pre-world. -/
theorem C9_vtable_immutable {σ η π δ : Type} (call : FacadeCall η π δ)
    (w : metal_interrupt σ η π δ × σ) (r : RetVal)
    (w2 : metal_interrupt σ η π δ × σ)
    (h : dispatchW call w = some (r, w2)) :
    w2.1.vtable = w.1.vtable := by
  simp only [dispatchW] at h
  rcases Option.map_eq_some'.mp h with ⟨p, hp, heq⟩
  cases heq
  rfl

/-- Claim C9, witness: a concrete enable call on hFull carries the handle with
its vtable through unchanged. -/
theorem C9_vtable_immutable_witness :
    ((hFull, (3 : Nat)).1.vtable = ((hFull, (0 : Nat))).1.vtable) :=
  C9_vtable_immutable (FacadeCall.enable 5) (hFull, 0) (RetVal.vint 5) (hFull, 3) rfl

/-- Claim C10: each facade operation is deterministic in the capability table
contents and the arguments: two handles carrying equal vtables produce equal
dispatch outcomes on the same call and state, since the facade reads nothing but
the handle, its vtable, and the call arguments. -/
theorem C10_deterministic {σ η π δ : Type} (call : FacadeCall η π δ)
    (c1 c2 : metal_interrupt σ η π δ) (s : σ)
    (h : c1.vtable = c2.vtable) :
    dispatch call (some c1) s = dispatch call (some c2) s := by
  cases c1
  cases c2
  cases h
  rfl

/-- Claim C10, witness: the separately constructed handles hFull and hFull2
share vtable contents and give equal dispatch outcomes on a disable call. -/
theorem C10_deterministic_witness :
    dispatch (FacadeCall.disable 2) (some hFull) 0 =
      dispatch (FacadeCall.disable 2) (some hFull2) 0 :=
  C10_deterministic (FacadeCall.disable 2) hFull hFull2 0 rfl

end FreedomMetal
